import Mathlib

/-!
# Verification of the flood-maps data join and classification pipeline

Shallow embedding of the core logic of `sri_lanka_floods.py` (and the
classifier of `flood_lookup.py`): flood-status classification, the
station/reading join engine, and the point-location risk assessor.

Modelling conventions:
* Python floats that can be non-finite (water levels and thresholds, which
  pass through `float(...)`) are modelled by `EFloat`: an exact rational or
  one of `nan`, `+inf`, `-inf`, with IEEE-754 `<` comparison semantics
  (any comparison involving `nan` is false).
* Python values reaching `float(...)` are modelled by `PyVal`
  (`None` / a float / a string); `float(PyVal)` is `pyFloat`, returning
  `Option EFloat` (`none` = the `TypeError`/`ValueError` path).
* The haversine distance (`_haversine`, a floating-point transcendental
  function) is not embedded; every function that uses it takes the distance
  function `hav : ℚ → ℚ → ℚ → ℚ → ℚ` as an explicit parameter, so theorems
  quantify over it.
* Python's stable `list.sort(key=...)` is modelled by Mathlib's stable
  `List.insertionSort` on the same key.
-/

/-- Extended float value: exact rational, or one of the IEEE non-finite
values `nan`, `+inf`, `-inf`.  Binary rounding of doubles is abstracted:
finite values are kept exact in `ℚ`. -/
inductive EFloat where
  | nan : EFloat
  | pinf : EFloat
  | ninf : EFloat
  | fin (q : ℚ) : EFloat
deriving DecidableEq, Repr

/-- IEEE-754 `<` on `EFloat`: every comparison involving `nan` is false. -/
def EFloat.lt : EFloat → EFloat → Bool
  | .nan, _ => false
  | _, .nan => false
  | .ninf, .ninf => false
  | .ninf, _ => true
  | _, .ninf => false
  | .pinf, _ => false
  | .fin _, .pinf => true
  | .fin q, .fin r => decide (q < r)

/-- A Python value as it reaches `float(...)` in the classifiers:
`none` is Python `None` (also what `dict.get` returns for a missing key),
`num` a float already, `str` a string. -/
inductive PyVal where
  | none : PyVal
  | num (x : EFloat) : PyVal
  | str (s : String) : PyVal
deriving DecidableEq, Repr

/-- Value of a list of characters all of which are decimal digits
(possibly empty, value 0); `none` if any non-digit occurs. -/
def digitsOptVal? (cs : List Char) : Option Nat :=
  cs.foldl
    (fun acc c => acc.bind fun n =>
      if c.isDigit then some (10 * n + (c.toNat - 48)) else Option.none)
    (some 0)

/-- Value of a non-empty all-digit character list. -/
def digitsVal? (cs : List Char) : Option Nat :=
  if cs = [] then Option.none else digitsOptVal? cs

/-- Mantissa of a decimal literal: `digits`, `digits.digits`, `digits.` or
`.digits` (at least one digit overall). -/
def parseMantissa (cs : List Char) : Option ℚ :=
  let ip := cs.takeWhile (fun c => c ≠ '.')
  let rest := cs.dropWhile (fun c => c ≠ '.')
  match rest with
  | [] => if ip = [] then Option.none else (digitsOptVal? ip).map (fun n => (n : ℚ))
  | _ :: fp =>
    if ip = [] ∧ fp = [] then Option.none
    else
      match digitsOptVal? ip, digitsOptVal? fp with
      | some i, some f => some ((i : ℚ) + (f : ℚ) / (10 : ℚ) ^ fp.length)
      | _, _ => Option.none

/-- Models CPython `float(str)`: optional surrounding whitespace, optional
sign, then `inf`/`infinity`/`nan` (case-insensitive) or a decimal literal
with optional fraction and exponent.  Rounding to binary double and digit
separators are abstracted; finite values are kept exact in `ℚ`. -/
def parseFloatString (s : String) : Option EFloat :=
  let cs := (s.trim.toLower).toList
  if cs = [] then Option.none
  else
    let signBody : Bool × List Char :=
      match cs with
      | '-' :: r => (true, r)
      | '+' :: r => (false, r)
      | r => (false, r)
    let neg := signBody.1
    let body := signBody.2
    if body = ['i', 'n', 'f'] ∨ body = ['i', 'n', 'f', 'i', 'n', 'i', 't', 'y'] then
      some (if neg then EFloat.ninf else EFloat.pinf)
    else if body = ['n', 'a', 'n'] then
      some EFloat.nan
    else
      let mant := body.takeWhile (fun c => c ≠ 'e')
      let rest := body.dropWhile (fun c => c ≠ 'e')
      let expOpt : Option Int :=
        match rest with
        | [] => some 0
        | _ :: ex =>
          match ex with
          | '-' :: ds => (digitsVal? ds).map (fun n => -(n : Int))
          | '+' :: ds => (digitsVal? ds).map (fun n => (n : Int))
          | ds => (digitsVal? ds).map (fun n => (n : Int))
      match parseMantissa mant, expOpt with
      | some m, some e =>
          some (EFloat.fin ((if neg then -m else m) * (10 : ℚ) ^ e))
      | _, _ => Option.none

/-- Models Python `float(v)` for the values the classifiers receive:
`None` raises `TypeError` (→ `none`), a float passes through, a string is
parsed (`ValueError` → `none`). -/
def pyFloat : PyVal → Option EFloat
  | .none => Option.none
  | .num x => some x
  | .str s => parseFloatString s

/-- The shared threshold-comparison chain of both classifiers, applied to
the four `float(...)` results (`sri_lanka_floods.py` lines 62-65 and
`flood_lookup.py` lines 134-141): any failed conversion yields `UNKNOWN`,
otherwise the first satisfied `<` comparison decides the tier. -/
def classifyCore (w a mi ma : Option EFloat) : String :=
  match w, a, mi, ma with
  | some w, some a, some mi, some ma =>
      if EFloat.lt w a then "NORMAL"
      else if EFloat.lt w mi then "ALERT"
      else if EFloat.lt w ma then "MINOR_FLOOD"
      else "MAJOR_FLOOD"
  | _, _, _, _ => "UNKNOWN"

/-- `_classify` of `sri_lanka_floods.py` (lines 56-65): convert all four
inputs with `float(...)` inside one `try` (any `TypeError`/`ValueError`
→ `UNKNOWN`), then walk the `<` chain. -/
def _classify (wl alert minor major : PyVal) : String :=
  classifyCore (pyFloat wl) (pyFloat alert) (pyFloat minor) (pyFloat major)

/-- The gauge attribute fields read by `classify_status` in
`flood_lookup.py`; a key missing from the attributes dict is `PyVal.none`
(Python `dict.get` returns `None` either way). -/
structure GaugeAttrs where
  water_level : PyVal
  alertpull : PyVal
  minorpull : PyVal
  majorpull : PyVal
deriving DecidableEq, Repr

/-- `classify_status` of `flood_lookup.py` (lines 117-141): explicit
`None` pre-check on the four fields, then the same `float(...)` + `<` chain
as `_classify`. -/
def classify_status (attrs : GaugeAttrs) : String :=
  if attrs.water_level = PyVal.none ∨ attrs.alertpull = PyVal.none ∨
      attrs.minorpull = PyVal.none ∨ attrs.majorpull = PyVal.none then
    "UNKNOWN"
  else
    classifyCore (pyFloat attrs.water_level) (pyFloat attrs.alertpull)
      (pyFloat attrs.minorpull) (pyFloat attrs.majorpull)

example : parseFloatString "nan" = some EFloat.nan := by with_unfolding_all decide
example : parseFloatString "7.5" = some (EFloat.fin (15/2)) := by with_unfolding_all decide
example : _classify (.num (.fin 7)) (.num (.fin (15/2))) (.num (.fin 9)) (.num (.fin 10)) = "NORMAL" := by with_unfolding_all decide
example : _classify (.num .nan) (.num (.fin (15/2))) (.num (.fin 9)) (.num (.fin 10)) = "MAJOR_FLOOD" := by with_unfolding_all decide
example : _classify (.str "nan") (.num (.fin (15/2))) (.num (.fin 9)) (.num (.fin 10)) = "MAJOR_FLOOD" := by with_unfolding_all decide
example : _classify .none (.num (.fin (15/2))) (.num (.fin 9)) (.num (.fin 10)) = "UNKNOWN" := rfl

/-- A raw `hydrostations` feature as the `get_all_stations` loop reads it:
`attributes.station` / `attributes.basin` (a missing key is `Option.none`)
and `geometry.x` / `geometry.y` (missing geometry or coordinate is
`Option.none`).  Coordinate floats are modelled in `ℚ`. -/
structure StationFeature where
  station : Option String
  basin : Option String
  x : Option ℚ
  y : Option ℚ
deriving DecidableEq, Repr

/-- The attributes of one raw `gauges_2_view` row as `_fetch_latest_readings`
stores them: the `gauge` join key, the four classification fields, and the
`CreationDate` epoch-millisecond timestamp. -/
structure Reading where
  gauge : Option String
  water_level : PyVal
  alertpull : PyVal
  minorpull : PyVal
  majorpull : PyVal
  CreationDate : Option Int
deriving DecidableEq, Repr

/-- One step of the dedup loop of `_fetch_latest_readings` (lines 104-110):
`if g and g not in latest: latest[g] = a` — a row is kept only when its
`gauge` key is truthy (present and non-empty) and not seen before.  The
insertion-ordered dict is modelled as an association list. -/
def insertReading (latest : List (String × Reading)) (r : Reading) :
    List (String × Reading) :=
  match r.gauge with
  | Option.none => latest
  | some g =>
    if g = "" then latest
    else if (latest.lookup g).isSome then latest
    else latest ++ [(g, r)]

/-- Modelled from the spec: the gauges query returns rows newest-first
(`orderByFields: "CreationDate DESC"` in the request issued by
`_fetch_latest_readings`; the ordering itself is executed by the ArcGIS
server, not by repository code).  Per the spec, readings are sorted by
observation time, descending, before deduplication; the sort is stable.
Rows without a timestamp sort as time 0. -/
def sortNewestFirst (rs : List Reading) : List Reading :=
  List.insertionSort
    (fun a b => (b.CreationDate.getD 0) ≤ (a.CreationDate.getD 0)) rs

/-- `_fetch_latest_readings` (lines 92-110) minus the HTTP layer: the raw
rows, server-sorted newest-first (`sortNewestFirst`), deduplicated keeping
the first row per truthy `gauge` key. -/
def _fetch_latest_readings (raw : List Reading) : List (String × Reading) :=
  (sortNewestFirst raw).foldl insertReading []

/-- `_parse_timestamp` (lines 68-75), with the ISO-string rendering
abstracted to the epoch-millisecond value itself: falsy input (`None` or
`0`) yields `None`. -/
def _parse_timestamp (ms : Option Int) : Option Int :=
  match ms with
  | Option.none => Option.none
  | some m => if m = 0 then Option.none else some m

/-- One station dict produced by `get_all_stations` (lines 181-194). -/
structure StationRecord where
  name : String
  basin : String
  lat : Option ℚ
  lon : Option ℚ
  status : String
  water_level : PyVal
  thresholds : Option (PyVal × PyVal × PyVal)
  updated : Option Int
deriving DecidableEq, Repr

/-- The per-feature body of the `get_all_stations` loop (lines 164-194):
skip when `not name or geom.get("x") is None`; look the name up in the
deduplicated readings; a matched reading is classified, an unmatched
station gets `NO_DATA` with null water level and thresholds. -/
def stationRecordOf (readings : List (String × Reading)) (s : StationFeature) :
    Option StationRecord :=
  if s.station.getD "" = "" ∨ s.x = Option.none then Option.none
  else
    match readings.lookup (s.station.getD "") with
    | some r =>
      some { name := s.station.getD ""
             basin := (s.basin.getD "").trim
             lat := s.y
             lon := s.x
             status := _classify r.water_level r.alertpull r.minorpull r.majorpull
             water_level := r.water_level
             thresholds := some (r.alertpull, r.minorpull, r.majorpull)
             updated := _parse_timestamp r.CreationDate }
    | Option.none =>
      some { name := s.station.getD ""
             basin := (s.basin.getD "").trim
             lat := s.y
             lon := s.x
             status := "NO_DATA"
             water_level := PyVal.none
             thresholds := Option.none
             updated := Option.none }

/-- `get_all_stations` (lines 141-196) minus the HTTP layer: join the
station features against the deduplicated latest readings, in station
input order. -/
def get_all_stations (stations : List StationFeature) (raw : List Reading) :
    List StationRecord :=
  stations.filterMap (stationRecordOf (_fetch_latest_readings raw))

/-- An element of `check_risk`'s `nearby` list: `{**s, "distance_km":
round(dist, 1)}` (line 226). -/
structure NearbyStation where
  station : StationRecord
  distance_km : ℚ
deriving DecidableEq, Repr

/-- Python `round` to the nearest integer, ties to even. -/
def roundHalfEven (q : ℚ) : ℤ :=
  if q - ⌊q⌋ < 1/2 then ⌊q⌋
  else if 1/2 < q - ⌊q⌋ then ⌊q⌋ + 1
  else if ⌊q⌋ % 2 = 0 then ⌊q⌋ else ⌊q⌋ + 1

/-- Python `round(d, 1)` on an exact rational: ties to even at the second
decimal.  (Binary-double representation error is abstracted; the model
rounds the exact value.) -/
def round1 (q : ℚ) : ℚ := (roundHalfEven (10 * q) : ℚ) / 10

/-- The within-radius filter of `check_risk` (lines 220-226): skip records
with a null coordinate, keep stations at haversine distance ≤ `radius_km`,
tagging each with `round(dist, 1)`.  `hav` abstracts `_haversine`
(floating-point transcendental geodesy, taken as a parameter). -/
def retained (hav : ℚ → ℚ → ℚ → ℚ → ℚ) (lat lon radius_km : ℚ)
    (all : List StationRecord) : List NearbyStation :=
  all.filterMap (fun s =>
    match s.lat, s.lon with
    | some la, some lo =>
      if hav lat lon la lo ≤ radius_km then
        some { station := s, distance_km := round1 (hav lat lon la lo) }
      else Option.none
    | _, _ => Option.none)

/-- The sort key of `nearby.sort(key=lambda x: x["distance_km"])`. -/
def distLe (a b : NearbyStation) : Prop := a.distance_km ≤ b.distance_km

instance : DecidableRel distLe :=
  fun a b => inferInstanceAs (Decidable (a.distance_km ≤ b.distance_km))

instance : IsTotal NearbyStation distLe :=
  ⟨fun a b => le_total a.distance_km b.distance_km⟩

instance : IsTrans NearbyStation distLe :=
  ⟨fun _ _ _ hab hbc => le_trans hab hbc⟩

/-- Line 228: Python's stable `list.sort` on `distance_km`, modelled by
stable insertion sort. -/
def retainedSorted (hav : ℚ → ℚ → ℚ → ℚ → ℚ) (lat lon radius_km : ℚ)
    (all : List StationRecord) : List NearbyStation :=
  List.insertionSort distLe (retained hav lat lon radius_km all)

/-- The worst-status scan of `check_risk` (lines 230-246), state =
`(worst_status, worst_station)` started at `("NORMAL", None)`, with the
Python `break` on `MAJOR_FLOOD`.  Note the `MINOR_FLOOD` branch guard is
only `worst_status not in ("MAJOR_FLOOD",)`, so it also fires when
`worst_status` is already `MINOR_FLOOD`. -/
def worstScanGo (ws : String) (wst : Option NearbyStation) :
    List NearbyStation → String × Option NearbyStation
  | [] => (ws, wst)
  | s :: rest =>
    if s.station.status = "MAJOR_FLOOD" then ("MAJOR_FLOOD", some s)
    else if s.station.status = "MINOR_FLOOD" ∧ ws ≠ "MAJOR_FLOOD" then
      worstScanGo "MINOR_FLOOD" (some s) rest
    else if s.station.status = "ALERT" ∧ ws = "NORMAL" then
      worstScanGo "ALERT" (some s) rest
    else worstScanGo ws wst rest

/-- Lines 230-246 applied to the sorted nearby list. -/
def worstScan (nearby : List NearbyStation) : String × Option NearbyStation :=
  worstScanGo "NORMAL" Option.none nearby

/-- `risk_map.get(worst_status, "UNKNOWN")` (lines 247-248). -/
def riskMap (ws : String) : String :=
  if ws = "MAJOR_FLOOD" then "HIGH"
  else if ws = "MINOR_FLOOD" then "HIGH"
  else if ws = "ALERT" then "MEDIUM"
  else if ws = "NORMAL" then "LOW"
  else "UNKNOWN"

/-- Python string interpolation of a `round(d, 1)` float: one digit after
the decimal point (`5.2`, `2.0`).  `distance_km` values are always
`round1` results, i.e. integer multiples of `1/10`. -/
def fmtKm (q : ℚ) : String :=
  toString ((10 * q).num / 10) ++ "." ++ toString ((10 * q).num % 10)

/-- The dict returned by `check_risk` (lines 261-268). -/
structure RiskAssessment where
  lat : ℚ
  lon : ℚ
  risk_level : String
  summary : String
  nearby : List NearbyStation
  advice : String
deriving DecidableEq, Repr

/-- `check_risk` (lines 199-268) minus the HTTP layer, with `_haversine`
abstracted as `hav`: filter to within-radius stations, sort by rounded
distance, scan for the worst status, map it to a risk level, and build
summary/advice around the recorded worst station. -/
def check_risk (hav : ℚ → ℚ → ℚ → ℚ → ℚ) (lat lon radius_km : ℚ)
    (stations : List StationFeature) (raw : List Reading) : RiskAssessment :=
  let nearby := retainedSorted hav lat lon radius_km (get_all_stations stations raw)
  let res := worstScan nearby
  let risk_level := riskMap res.1
  match res.2 with
  | some w =>
    { lat := lat
      lon := lon
      risk_level := risk_level
      summary := w.station.status ++ " at " ++ w.station.name ++ " (" ++
        fmtKm w.distance_km ++ " km away)"
      nearby := nearby.take 5
      advice :=
        if risk_level = "HIGH" then
          "Active flooding detected nearby. If you are near " ++
            (if w.station.basin = "" then "the river" else w.station.basin) ++
            ", move to higher ground and follow official alerts."
        else
          "Elevated water levels at " ++ w.station.name ++ ". Monitor the situation." }
  | Option.none =>
    { lat := lat
      lon := lon
      risk_level := risk_level
      summary := "No flood alerts within search radius"
      nearby := nearby.take 5
      advice := "No immediate flood risk detected from monitored rivers. Stay aware of local conditions." }

example :
    get_all_stations
      [{ station := some "X", basin := Option.none, x := some 80, y := some 7 }]
      [{ gauge := some "X", water_level := .num (.fin 11), alertpull := .num (.fin 7),
         minorpull := .num (.fin 9), majorpull := .num (.fin 10),
         CreationDate := some 1 }] =
    [{ name := "X", basin := "", lat := some 7, lon := some 80,
       status := "MAJOR_FLOOD", water_level := .num (.fin 11),
       thresholds := some (.num (.fin 7), .num (.fin 9), .num (.fin 10)),
       updated := some 1 }] := by with_unfolding_all decide

example :
    (check_risk (fun _ _ _ _ => 0) 7 80 15
      [{ station := some "X", basin := Option.none, x := some 80, y := some 7 }]
      [{ gauge := some "X", water_level := .num (.fin 11), alertpull := .num (.fin 7),
         minorpull := .num (.fin 9), majorpull := .num (.fin 10),
         CreationDate := some 1 }]).risk_level = "HIGH" := by with_unfolding_all decide

example :
    (check_risk (fun _ _ _ _ => 0) 7 80 15
      [{ station := some "X", basin := Option.none, x := some 80, y := some 7 }]
      [{ gauge := some "X", water_level := .num (.fin 11), alertpull := .num (.fin 7),
         minorpull := .num (.fin 9), majorpull := .num (.fin 10),
         CreationDate := some 1 }]).summary = "MAJOR_FLOOD at X (0.0 km away)" := by
  with_unfolding_all decide

/-- If any of the four converted inputs is `None`, the shared comparison
chain yields `UNKNOWN`. -/
lemma classifyCore_of_none {w a mi ma : Option EFloat}
    (h : w = Option.none ∨ a = Option.none ∨ mi = Option.none ∨ ma = Option.none) :
    classifyCore w a mi ma = "UNKNOWN" := by
  cases w <;> cases a <;> cases mi <;> cases ma <;> simp_all [classifyCore]

/-- With all four conversions successful, the chain never yields `UNKNOWN`. -/
lemma classifyCore_some_ne {w a mi ma : EFloat} :
    classifyCore (some w) (some a) (some mi) (some ma) ≠ "UNKNOWN" := by
  simp only [classifyCore]
  split_ifs <;> decide

/-- C4 (amended): `_classify` returns UNKNOWN exactly when one of the four
inputs fails Python `float(...)` conversion (missing value or unparseable
string).  Values that parse to non-finite floats (`"nan"`, `"inf"`, NaN or
infinite floats) are not UNKNOWN: they run through the comparison chain. -/
theorem classify_unknown_iff_conversion_fails (wl a mi ma : PyVal) :
    _classify wl a mi ma = "UNKNOWN" ↔
      (pyFloat wl = Option.none ∨ pyFloat a = Option.none ∨
        pyFloat mi = Option.none ∨ pyFloat ma = Option.none) := by
  constructor
  · intro h
    by_contra hn
    push_neg at hn
    obtain ⟨h1, h2, h3, h4⟩ := hn
    rcases Option.ne_none_iff_exists'.mp h1 with ⟨w, hw⟩
    rcases Option.ne_none_iff_exists'.mp h2 with ⟨av, ha⟩
    rcases Option.ne_none_iff_exists'.mp h3 with ⟨mv, hm⟩
    rcases Option.ne_none_iff_exists'.mp h4 with ⟨Mv, hM⟩
    rw [_classify, hw, ha, hm, hM] at h
    exact classifyCore_some_ne h
  · intro h
    exact classifyCore_of_none h

/-- C4 counterexample: the string `"nan"` is parseable (to the non-finite
NaN, not to any finite number), and `_classify("nan", 7.5, 9, 10)` returns
`MAJOR_FLOOD`, not `UNKNOWN`: every IEEE comparison against NaN is false,
so the chain falls through to the final branch. -/
theorem classify_nan_counterexample :
    pyFloat (PyVal.str "nan") = some EFloat.nan ∧
    _classify (.str "nan") (.num (.fin (15/2))) (.num (.fin 9)) (.num (.fin 10)) =
      "MAJOR_FLOOD" ∧
    _classify (.str "nan") (.num (.fin (15/2))) (.num (.fin 9)) (.num (.fin 10)) ≠
      "UNKNOWN" := by
  refine ⟨by with_unfolding_all decide, by with_unfolding_all decide,
    by with_unfolding_all decide⟩

/-- C9: for finite numeric inputs with monotone thresholds
(alert ≤ minor ≤ major), `_classify` realizes the four half-open bands:
NORMAL iff wl < alert, ALERT iff alert ≤ wl < minor, MINOR_FLOOD iff
minor ≤ wl < major, MAJOR_FLOOD iff wl ≥ major. -/
theorem classify_bands (w a mi ma : ℚ) (h1 : a ≤ mi) (h2 : mi ≤ ma) :
    (_classify (.num (.fin w)) (.num (.fin a)) (.num (.fin mi)) (.num (.fin ma)) =
        "NORMAL" ↔ w < a) ∧
    (_classify (.num (.fin w)) (.num (.fin a)) (.num (.fin mi)) (.num (.fin ma)) =
        "ALERT" ↔ a ≤ w ∧ w < mi) ∧
    (_classify (.num (.fin w)) (.num (.fin a)) (.num (.fin mi)) (.num (.fin ma)) =
        "MINOR_FLOOD" ↔ mi ≤ w ∧ w < ma) ∧
    (_classify (.num (.fin w)) (.num (.fin a)) (.num (.fin mi)) (.num (.fin ma)) =
        "MAJOR_FLOOD" ↔ ma ≤ w) := by
  have e : _classify (.num (.fin w)) (.num (.fin a)) (.num (.fin mi)) (.num (.fin ma)) =
      (if w < a then "NORMAL" else if w < mi then "ALERT"
        else if w < ma then "MINOR_FLOOD" else "MAJOR_FLOOD") := by
    simp [_classify, pyFloat, classifyCore, EFloat.lt]
  rw [e]
  split_ifs with hwa hwmi hwma
  · exact ⟨by simp [hwa],
      iff_of_false (by decide) (by rintro ⟨h, _⟩; linarith),
      iff_of_false (by decide) (by rintro ⟨h, _⟩; linarith),
      iff_of_false (by decide) (by intro h; linarith)⟩
  · exact ⟨iff_of_false (by decide) (by intro h; exact hwa h),
      iff_of_true rfl ⟨le_of_not_lt hwa, hwmi⟩,
      iff_of_false (by decide) (by rintro ⟨h, _⟩; linarith),
      iff_of_false (by decide) (by intro h; linarith)⟩
  · exact ⟨iff_of_false (by decide) (by intro h; exact hwa h),
      iff_of_false (by decide) (by rintro ⟨_, h⟩; exact hwmi h),
      iff_of_true rfl ⟨le_of_not_lt hwmi, hwma⟩,
      iff_of_false (by decide) (by intro h; linarith)⟩
  · exact ⟨iff_of_false (by decide) (by intro h; linarith),
      iff_of_false (by decide) (by rintro ⟨_, h⟩; linarith),
      iff_of_false (by decide) (by rintro ⟨_, h⟩; exact hwma h),
      iff_of_true rfl (le_of_not_lt hwma)⟩

/-- Witness for C9 at the spec's concrete inputs: with thresholds
7.5 ≤ 9 ≤ 10, a water level of 7.0 classifies as NORMAL. -/
theorem classify_bands_witness :
    (7:ℚ) < 15/2 ∧ (15/2:ℚ) ≤ 9 ∧ (9:ℚ) ≤ 10 ∧
    _classify (.num (.fin 7)) (.num (.fin (15/2))) (.num (.fin 9)) (.num (.fin 10)) =
      "NORMAL" := by
  have h := classify_bands 7 (15/2) 9 10 (by norm_num) (by norm_num)
  exact ⟨by norm_num, by norm_num, by norm_num, h.1.mpr (by norm_num)⟩

/-- C10: the two classifier implementations agree extensionally: for any
four values, `classify_status` on an attributes record carrying them equals
`_classify` on them directly.  The explicit `None` pre-check of
`classify_status` is subsumed by `float(None)` raising `TypeError` in
`_classify`. -/
theorem classify_status_eq_classify (wl a mi ma : PyVal) :
    classify_status ⟨wl, a, mi, ma⟩ = _classify wl a mi ma := by
  simp only [classify_status, _classify]
  by_cases h : wl = PyVal.none ∨ a = PyVal.none ∨ mi = PyVal.none ∨ ma = PyVal.none
  · rw [if_pos h]
    have h' : pyFloat wl = Option.none ∨ pyFloat a = Option.none ∨
        pyFloat mi = Option.none ∨ pyFloat ma = Option.none := by
      rcases h with h | h | h | h <;> simp [h, pyFloat]
    exact (classifyCore_of_none h').symm
  · rw [if_neg h]

/-- C5 (amended): every record emitted by the join engine has a non-empty
name and a non-null longitude — the loop's guard is
`if not name or geom.get("x") is None` and checks only `x`. -/
theorem allStations_name_lon (ss : List StationFeature) (rs : List Reading)
    (r : StationRecord) (hr : r ∈ get_all_stations ss rs) :
    r.name ≠ "" ∧ r.lon ≠ Option.none := by
  rcases List.mem_filterMap.mp hr with ⟨f, _, hf⟩
  unfold stationRecordOf at hf
  by_cases hc : f.station.getD "" = "" ∨ f.x = Option.none
  · rw [if_pos hc] at hf
    exact Option.noConfusion hf
  · rw [if_neg hc] at hf
    push_neg at hc
    obtain ⟨hname, hx⟩ := hc
    cases hlk : List.lookup (f.station.getD "") (_fetch_latest_readings rs) with
    | none =>
      rw [hlk] at hf
      simp only [Option.some.injEq] at hf
      subst hf
      exact ⟨hname, hx⟩
    | some rd =>
      rw [hlk] at hf
      simp only [Option.some.injEq] at hf
      subst hf
      exact ⟨hname, hx⟩

/-- Witness for C5: a concrete joined record has a non-empty name and a
non-null longitude. -/
theorem allStations_name_lon_witness :
    ({ name := "A", basin := "", lat := Option.none, lon := some 80,
       status := "NO_DATA", water_level := PyVal.none,
       thresholds := Option.none, updated := Option.none } : StationRecord).name ≠ "" ∧
    ({ name := "A", basin := "", lat := Option.none, lon := some 80,
       status := "NO_DATA", water_level := PyVal.none,
       thresholds := Option.none, updated := Option.none } : StationRecord).lon ≠
      Option.none :=
  allStations_name_lon
    [{ station := some "A", basin := Option.none, x := some 80, y := Option.none }] []
    _ (by with_unfolding_all decide)

/-- C5 counterexample: a metadata entry with `x` present but `y` missing is
NOT excluded — it is joined with a null latitude, refuting both "every
record has a non-null latitude" and "either coordinate missing excludes the
entry". -/
theorem missing_lat_retained_counterexample :
    (get_all_stations
        [{ station := some "A", basin := Option.none, x := some 80, y := Option.none }]
        []).map (fun r => (r.name, r.lat)) = [("A", Option.none)] := by
  with_unfolding_all decide

/-- C6: for two readings sharing a truthy join key, with the second-listed
timestamp older, the deduplicated latest-readings map retains exactly the
newer reading — in either arrival order. -/
theorem dedup_keeps_newer (g : String) (r1 r2 : Reading) (t1 t2 : Int)
    (hg : g ≠ "") (h1 : r1.gauge = some g) (h2 : r2.gauge = some g)
    (ht1 : r1.CreationDate = some t1) (ht2 : r2.CreationDate = some t2)
    (hlt : t2 < t1) :
    _fetch_latest_readings [r1, r2] = [(g, r1)] ∧
    _fetch_latest_readings [r2, r1] = [(g, r1)] := by
  have hsort1 : sortNewestFirst [r1, r2] = [r1, r2] := by
    simp [sortNewestFirst, List.insertionSort, List.orderedInsert, ht1, ht2,
      le_of_lt hlt]
  have hsort2 : sortNewestFirst [r2, r1] = [r1, r2] := by
    simp [sortNewestFirst, List.insertionSort, List.orderedInsert, ht1, ht2,
      not_le.mpr hlt]
  have hded : List.foldl insertReading [] [r1, r2] = [(g, r1)] := by
    simp [insertReading, h1, h2, hg, List.lookup]
  exact ⟨by unfold _fetch_latest_readings; rw [hsort1]; exact hded,
    by unfold _fetch_latest_readings; rw [hsort2]; exact hded⟩

/-- Witness for C6 at concrete readings: key "X", timestamps 2 over 1. -/
theorem dedup_keeps_newer_witness :
    _fetch_latest_readings
        [{ gauge := some "X", water_level := .num (.fin 11), alertpull := .num (.fin 7),
           minorpull := .num (.fin 9), majorpull := .num (.fin 10), CreationDate := some 2 },
         { gauge := some "X", water_level := .num (.fin 5), alertpull := .num (.fin 7),
           minorpull := .num (.fin 9), majorpull := .num (.fin 10), CreationDate := some 1 }] =
      [("X",
        { gauge := some "X", water_level := .num (.fin 11), alertpull := .num (.fin 7),
          minorpull := .num (.fin 9), majorpull := .num (.fin 10), CreationDate := some 2 })] ∧
    _fetch_latest_readings
        [{ gauge := some "X", water_level := .num (.fin 5), alertpull := .num (.fin 7),
           minorpull := .num (.fin 9), majorpull := .num (.fin 10), CreationDate := some 1 },
         { gauge := some "X", water_level := .num (.fin 11), alertpull := .num (.fin 7),
           minorpull := .num (.fin 9), majorpull := .num (.fin 10), CreationDate := some 2 }] =
      [("X",
        { gauge := some "X", water_level := .num (.fin 11), alertpull := .num (.fin 7),
          minorpull := .num (.fin 9), majorpull := .num (.fin 10), CreationDate := some 2 })] :=
  dedup_keeps_newer "X" _ _ 2 1 (by decide) rfl rfl rfl rfl (by decide)

/-- Line 25 of `dashboard_legacy.py`: the legacy report groups records
under `s["basin"].strip() or "Unknown"` — it is this reporting layer, not
the join engine, that turns blank basins into "Unknown". -/
def dashboardBasinKey (r : StationRecord) : String :=
  if r.basin.trim = "" then "Unknown" else r.basin.trim

/-- C7 (amended): for a station metadata entry with blank/missing basin,
the join engine emits `basin = ""` (the stripped label), not "Unknown";
the "Unknown" default is applied downstream by the legacy dashboard's
grouping key. -/
theorem blank_basin_yields_empty (f : StationFeature) (rs : List Reading)
    (hname : f.station.getD "" ≠ "") (hx : f.x ≠ Option.none)
    (hbasin : (f.basin.getD "").trim = "") :
    ∃ r, get_all_stations [f] rs = [r] ∧ r.basin = "" ∧
      dashboardBasinKey r = "Unknown" := by
  have hcond : ¬ (f.station.getD "" = "" ∨ f.x = Option.none) := by
    push_neg; exact ⟨hname, hx⟩
  cases hlk : List.lookup (f.station.getD "") (_fetch_latest_readings rs) with
  | none =>
    refine ⟨{ name := f.station.getD "", basin := (f.basin.getD "").trim,
              lat := f.y, lon := f.x, status := "NO_DATA",
              water_level := PyVal.none, thresholds := Option.none,
              updated := Option.none }, ?_, hbasin, ?_⟩
    · simp [get_all_stations, List.filterMap_cons, stationRecordOf, hcond, hlk]
    · have ht : ("" : String).trim = "" := by with_unfolding_all rfl
      simp [dashboardBasinKey, hbasin, ht]
  | some rd =>
    refine ⟨{ name := f.station.getD "", basin := (f.basin.getD "").trim,
              lat := f.y, lon := f.x,
              status := _classify rd.water_level rd.alertpull rd.minorpull rd.majorpull,
              water_level := rd.water_level,
              thresholds := some (rd.alertpull, rd.minorpull, rd.majorpull),
              updated := _parse_timestamp rd.CreationDate }, ?_, hbasin, ?_⟩
    · simp [get_all_stations, List.filterMap_cons, stationRecordOf, hcond, hlk]
    · have ht : ("" : String).trim = "" := by with_unfolding_all rfl
      simp [dashboardBasinKey, hbasin, ht]

/-- Witness for C7: a concrete entry with a missing basin joins to a record
with empty basin, which the legacy dashboard key maps to "Unknown". -/
theorem blank_basin_yields_empty_witness :
    ∃ r, get_all_stations
        [{ station := some "A", basin := Option.none, x := some 80, y := some 6 }] [] =
      [r] ∧ r.basin = "" ∧ dashboardBasinKey r = "Unknown" :=
  blank_basin_yields_empty
    { station := some "A", basin := Option.none, x := some 80, y := some 6 } []
    (by with_unfolding_all decide) (by with_unfolding_all decide)
    (by with_unfolding_all decide)

/-- C7 counterexample: the join engine's record for a missing-basin entry
carries basin `""`, not `"Unknown"`. -/
theorem basin_not_unknown_counterexample :
    (get_all_stations
        [{ station := some "A", basin := Option.none, x := some 80, y := some 6 }]
        []).map (fun r => r.basin) = [""] ∧ ("" : String) ≠ "Unknown" := by
  exact ⟨by with_unfolding_all decide, by decide⟩

/-- The displayed `nearby` field is always the first up-to-5 entries of the
sorted within-radius list (`nearby[:5]`, line 266) — the same in both
branches of the summary construction. -/
lemma check_risk_nearby_eq (hav : ℚ → ℚ → ℚ → ℚ → ℚ) (lat lon radius_km : ℚ)
    (ss : List StationFeature) (rs : List Reading) :
    (check_risk hav lat lon radius_km ss rs).nearby =
      (retainedSorted hav lat lon radius_km (get_all_stations ss rs)).take 5 := by
  simp only [check_risk]
  rcases (worstScan (retainedSorted hav lat lon radius_km (get_all_stations ss rs))).2 with
    _ | w <;> rfl

/-- C1 (amended): when no joined station with coordinates lies within
`radius_km` (in particular with no stations at all), `check_risk` returns
risk level LOW — `worst_status` starts at NORMAL, which `risk_map` sends to
LOW — together with the "No immediate flood risk detected" advisory and the
"No flood alerts within search radius" summary. -/
theorem empty_retained_low (hav : ℚ → ℚ → ℚ → ℚ → ℚ) (lat lon radius_km : ℚ)
    (ss : List StationFeature) (rs : List Reading)
    (h : ∀ s ∈ get_all_stations ss rs, ∀ la lo, s.lat = some la → s.lon = some lo →
      radius_km < hav lat lon la lo) :
    (check_risk hav lat lon radius_km ss rs).risk_level = "LOW" ∧
    (check_risk hav lat lon radius_km ss rs).summary =
      "No flood alerts within search radius" ∧
    (check_risk hav lat lon radius_km ss rs).advice =
      "No immediate flood risk detected from monitored rivers. Stay aware of local conditions." := by
  have hret : retained hav lat lon radius_km (get_all_stations ss rs) = [] := by
    unfold retained
    rw [List.filterMap_eq_nil_iff]
    intro s hs
    cases hla : s.lat with
    | none => rfl
    | some la =>
      cases hlo : s.lon with
      | none => rfl
      | some lo =>
        show (if hav lat lon la lo ≤ radius_km then
            some ({ station := s, distance_km := round1 (hav lat lon la lo) } : NearbyStation)
            else Option.none) = Option.none
        exact if_neg (not_le.mpr (h s hs la lo hla hlo))
  have hcr : check_risk hav lat lon radius_km ss rs =
      { lat := lat, lon := lon, risk_level := riskMap "NORMAL",
        summary := "No flood alerts within search radius",
        nearby := [],
        advice := "No immediate flood risk detected from monitored rivers. Stay aware of local conditions." } := by
    unfold check_risk retainedSorted
    rw [hret]
    with_unfolding_all rfl
  rw [hcr]
  refine ⟨?_, rfl, rfl⟩
  show riskMap "NORMAL" = "LOW"
  decide

/-- Witness for C1: the empty station set yields LOW with the no-risk
advisory. -/
theorem empty_retained_low_witness :
    (check_risk (fun _ _ _ _ => 1) 6 80 15 [] []).risk_level = "LOW" ∧
    (check_risk (fun _ _ _ _ => 1) 6 80 15 [] []).summary =
      "No flood alerts within search radius" ∧
    (check_risk (fun _ _ _ _ => 1) 6 80 15 [] []).advice =
      "No immediate flood risk detected from monitored rivers. Stay aware of local conditions." :=
  empty_retained_low (fun _ _ _ _ => 1) 6 80 15 [] []
    (by intro s hs; simp [get_all_stations] at hs)

/-- C1 counterexample: with an empty station set the returned risk level is
LOW, not UNKNOWN as the claim states. -/
theorem empty_risk_counterexample :
    (check_risk (fun _ _ _ _ => 0) 0 0 15 [] []).risk_level = "LOW" ∧
    (check_risk (fun _ _ _ _ => 0) 0 0 15 [] []).risk_level ≠ "UNKNOWN" :=
  ⟨by with_unfolding_all decide, by with_unfolding_all decide⟩

/-- The Nearest-Station Ranker as the spec and claim C2 word it (spec §4.4,
the recipe of `find_nearest_stations` in `flood_lookup.py`): keep records
with coordinates, stable-sort ascending by (unrounded) distance, return the
first `n`.  Stated from the claim's words to compare against `check_risk`'s
actual `nearby`. -/
def rankerPairLe (a b : StationRecord × ℚ) : Prop := a.2 ≤ b.2

instance : DecidableRel rankerPairLe :=
  fun a b => inferInstanceAs (Decidable (a.2 ≤ b.2))

/-- See `rankerPairLe`: the top-`n` nearest stations with coordinates. -/
def nearestRanker (hav : ℚ → ℚ → ℚ → ℚ → ℚ) (lat lon : ℚ)
    (stations : List StationRecord) (n : Nat) : List (StationRecord × ℚ) :=
  (List.insertionSort rankerPairLe
    (stations.filterMap (fun s =>
      match s.lat, s.lon with
      | some la, some lo => some (s, hav lat lon la lo)
      | _, _ => Option.none))).take n

/-- C2 counterexample: a single station with valid coordinates at distance
20 with radius 15: the radius-independent top-5 ranking contains it, but
`check_risk`'s `nearby` is empty — the displayed list is drawn from the
within-radius filter, not an independent top-5. -/
theorem nearby_not_top5_counterexample :
    ((check_risk (fun _ _ _ _ => 20) 0 0 15
        [{ station := some "A", basin := Option.none, x := some 80, y := some 6 }]
        []).nearby).length = 0 ∧
    (nearestRanker (fun _ _ _ _ => 20) 0 0
        (get_all_stations
          [{ station := some "A", basin := Option.none, x := some 80, y := some 6 }] [])
        5).length = 1 :=
  ⟨by with_unfolding_all decide, by with_unfolding_all decide⟩

/-- C2 (amended): `check_risk`'s `nearby` list is the first up-to-5 entries
of the distance-sorted WITHIN-RADIUS list: it has at most 5 entries and
every displayed entry is a joined record whose (unrounded) distance is
≤ `radius_km`, carrying the rounded distance — a station beyond the radius
never appears, even when fewer than 5 stations lie within the radius. -/
theorem nearby_within_radius (hav : ℚ → ℚ → ℚ → ℚ → ℚ) (lat lon radius_km : ℚ)
    (ss : List StationFeature) (rs : List Reading) :
    (check_risk hav lat lon radius_km ss rs).nearby.length ≤ 5 ∧
    ∀ e ∈ (check_risk hav lat lon radius_km ss rs).nearby,
      ∃ la lo, e.station ∈ get_all_stations ss rs ∧
        e.station.lat = some la ∧ e.station.lon = some lo ∧
        hav lat lon la lo ≤ radius_km ∧
        e.distance_km = round1 (hav lat lon la lo) := by
  rw [check_risk_nearby_eq]
  constructor
  · exact List.length_take_le 5 _
  · intro e he
    have he' := List.mem_of_mem_take he
    unfold retainedSorted at he'
    rw [(List.perm_insertionSort distLe _).mem_iff] at he'
    unfold retained at he'
    rcases List.mem_filterMap.mp he' with ⟨s, hs, hmap⟩
    cases hla : s.lat with
    | none => rw [hla] at hmap; simp at hmap
    | some la =>
      cases hlo : s.lon with
      | none => rw [hla, hlo] at hmap; simp at hmap
      | some lo =>
        rw [hla, hlo] at hmap
        have hmap' : (if hav lat lon la lo ≤ radius_km then
            some ({ station := s, distance_km := round1 (hav lat lon la lo) } : NearbyStation)
            else Option.none) = some e := hmap
        by_cases hd : hav lat lon la lo ≤ radius_km
        · rw [if_pos hd] at hmap'
          obtain rfl : ({ station := s, distance_km := round1 (hav lat lon la lo) } :
              NearbyStation) = e := Option.some.inj hmap'
          exact ⟨la, lo, hs, hla, hlo, hd, rfl⟩
        · rw [if_neg hd] at hmap'
          exact Option.noConfusion hmap'

/-- Witness for C2 at a station 5 km away with radius 15: its displayed
entry is within radius and carries the rounded distance. -/
theorem nearby_within_radius_witness :
    ∃ la lo,
      ({ station := { name := "X", basin := "", lat := some 6, lon := some 80,
                      status := "NO_DATA", water_level := PyVal.none,
                      thresholds := Option.none, updated := Option.none },
         distance_km := 5 } : NearbyStation).station ∈
        get_all_stations
          [{ station := some "X", basin := Option.none, x := some 80, y := some 6 }] [] ∧
      ({ station := { name := "X", basin := "", lat := some 6, lon := some 80,
                      status := "NO_DATA", water_level := PyVal.none,
                      thresholds := Option.none, updated := Option.none },
         distance_km := 5 } : NearbyStation).station.lat = some la ∧
      ({ station := { name := "X", basin := "", lat := some 6, lon := some 80,
                      status := "NO_DATA", water_level := PyVal.none,
                      thresholds := Option.none, updated := Option.none },
         distance_km := 5 } : NearbyStation).station.lon = some lo ∧
      (fun _ _ _ _ => (5 : ℚ)) 6 80 la lo ≤ 15 ∧
      ({ station := { name := "X", basin := "", lat := some 6, lon := some 80,
                      status := "NO_DATA", water_level := PyVal.none,
                      thresholds := Option.none, updated := Option.none },
         distance_km := 5 } : NearbyStation).distance_km =
        round1 ((fun _ _ _ _ => (5 : ℚ)) 6 80 la lo) :=
  (nearby_within_radius (fun _ _ _ _ => 5) 6 80 15
      [{ station := some "X", basin := Option.none, x := some 80, y := some 6 }] []).2
    _ (by with_unfolding_all decide)

/-- Once the scan state has left NORMAL, stations that are neither
MAJOR_FLOOD nor MINOR_FLOOD never change it: the ALERT branch requires
`worst_status == "NORMAL"`. -/
lemma worstScanGo_inert (l : List NearbyStation) :
    ∀ ws wst, ws ≠ "NORMAL" →
      (∀ s ∈ l, s.station.status ≠ "MAJOR_FLOOD" ∧ s.station.status ≠ "MINOR_FLOOD") →
      worstScanGo ws wst l = (ws, wst) := by
  induction l with
  | nil => intro ws wst _ _; rfl
  | cons s t ih =>
    intro ws wst hws hl
    obtain ⟨h1, h2⟩ := hl s (List.mem_cons_self s t)
    have e : worstScanGo ws wst (s :: t) =
        (if s.station.status = "MAJOR_FLOOD" then ("MAJOR_FLOOD", some s)
         else if s.station.status = "MINOR_FLOOD" ∧ ws ≠ "MAJOR_FLOOD" then
           worstScanGo "MINOR_FLOOD" (some s) t
         else if s.station.status = "ALERT" ∧ ws = "NORMAL" then
           worstScanGo "ALERT" (some s) t
         else worstScanGo ws wst t) := rfl
    rw [e, if_neg h1, if_neg (fun hc => h2 hc.1), if_neg (fun hc => hws hc.2)]
    exact ih ws wst hws (fun x hx => hl x (List.mem_cons_of_mem s hx))

/-- When a MAJOR_FLOOD station is present, the scan `break`s at the first
one: it is returned as representative whatever the incoming state. -/
lemma worstScanGo_major (l : List NearbyStation) :
    ∀ ws wst, (∃ s ∈ l, s.station.status = "MAJOR_FLOOD") →
      worstScanGo ws wst l =
        ("MAJOR_FLOOD",
          (l.filter (fun s => s.station.status = "MAJOR_FLOOD")).head?) := by
  induction l with
  | nil => rintro ws wst ⟨s, hs, _⟩; exact absurd hs (List.not_mem_nil s)
  | cons s t ih =>
    rintro ws wst ⟨x, hx, hxM⟩
    have e : worstScanGo ws wst (s :: t) =
        (if s.station.status = "MAJOR_FLOOD" then ("MAJOR_FLOOD", some s)
         else if s.station.status = "MINOR_FLOOD" ∧ ws ≠ "MAJOR_FLOOD" then
           worstScanGo "MINOR_FLOOD" (some s) t
         else if s.station.status = "ALERT" ∧ ws = "NORMAL" then
           worstScanGo "ALERT" (some s) t
         else worstScanGo ws wst t) := rfl
    by_cases hsM : s.station.status = "MAJOR_FLOOD"
    · rw [e, if_pos hsM, List.filter_cons_of_pos (by simpa using hsM)]
      rfl
    · have hx' : x ∈ t := by
        rcases List.mem_cons.mp hx with h | h
        · exact absurd (h ▸ hxM) hsM
        · exact h
      rw [e, if_neg hsM, List.filter_cons_of_neg (by simpa using hsM)]
      split_ifs with h1 h2
      · exact ih "MINOR_FLOOD" (some s) ⟨x, hx', hxM⟩
      · exact ih "ALERT" (some s) ⟨x, hx', hxM⟩
      · exact ih ws wst ⟨x, hx', hxM⟩

/-- With no MAJOR_FLOOD present and some MINOR_FLOOD present, the scan ends
in state MINOR_FLOOD carrying the LAST MINOR_FLOOD station: the branch
guard `worst_status not in ("MAJOR_FLOOD",)` lets every further MINOR_FLOOD
overwrite the representative. -/
lemma worstScanGo_minor (l : List NearbyStation) :
    ∀ ws wst, ws ≠ "MAJOR_FLOOD" →
      (∀ s ∈ l, s.station.status ≠ "MAJOR_FLOOD") →
      (∃ s ∈ l, s.station.status = "MINOR_FLOOD") →
      worstScanGo ws wst l =
        ("MINOR_FLOOD",
          (l.filter (fun s => s.station.status = "MINOR_FLOOD")).getLast?) := by
  induction l with
  | nil => rintro ws wst _ _ ⟨s, hs, _⟩; exact absurd hs (List.not_mem_nil s)
  | cons s t ih =>
    rintro ws wst hws hnoM ⟨x, hx, hxm⟩
    have hsM : s.station.status ≠ "MAJOR_FLOOD" := hnoM s (List.mem_cons_self s t)
    have e : worstScanGo ws wst (s :: t) =
        (if s.station.status = "MAJOR_FLOOD" then ("MAJOR_FLOOD", some s)
         else if s.station.status = "MINOR_FLOOD" ∧ ws ≠ "MAJOR_FLOOD" then
           worstScanGo "MINOR_FLOOD" (some s) t
         else if s.station.status = "ALERT" ∧ ws = "NORMAL" then
           worstScanGo "ALERT" (some s) t
         else worstScanGo ws wst t) := rfl
    by_cases hsm : s.station.status = "MINOR_FLOOD"
    · rw [e, if_neg hsM, if_pos ⟨hsm, hws⟩,
        List.filter_cons_of_pos (by simpa using hsm)]
      by_cases ht : ∃ y ∈ t, y.station.status = "MINOR_FLOOD"
      · rw [ih "MINOR_FLOOD" (some s) (by decide)
          (fun y hy => hnoM y (List.mem_cons_of_mem s hy)) ht]
        obtain ⟨y, hy, hym⟩ := ht
        have hne : y ∈ t.filter (fun s => s.station.status = "MINOR_FLOOD") :=
          List.mem_filter.mpr ⟨hy, by simpa using hym⟩
        cases hL : t.filter (fun s => s.station.status = "MINOR_FLOOD") with
        | nil => rw [hL] at hne; exact absurd hne (List.not_mem_nil y)
        | cons b L' => rw [List.getLast?_cons_cons]
      · push_neg at ht
        rw [worstScanGo_inert t "MINOR_FLOOD" (some s) (by decide)
          (fun y hy => ⟨hnoM y (List.mem_cons_of_mem s hy), ht y hy⟩)]
        have hfil : t.filter (fun s => s.station.status = "MINOR_FLOOD") = [] := by
          rw [List.filter_eq_nil_iff]
          intro y hy
          simpa using ht y hy
        rw [hfil]
        rfl
    · have hx' : x ∈ t := by
        rcases List.mem_cons.mp hx with h | h
        · exact absurd (h ▸ hxm) hsm
        · exact h
      rw [e, if_neg hsM, if_neg (fun hc => hsm hc.1),
        List.filter_cons_of_neg (by simpa using hsm)]
      by_cases hsa : s.station.status = "ALERT" ∧ ws = "NORMAL"
      · rw [if_pos hsa]
        exact ih "ALERT" (some s) (by decide)
          (fun y hy => hnoM y (List.mem_cons_of_mem s hy)) ⟨x, hx', hxm⟩
      · rw [if_neg hsa]
        exact ih ws wst hws
          (fun y hy => hnoM y (List.mem_cons_of_mem s hy)) ⟨x, hx', hxm⟩

/-- With neither MAJOR_FLOOD nor MINOR_FLOOD present and some ALERT
present, the scan (from the initial NORMAL state) records the FIRST ALERT
station: once the state is ALERT the guard `worst_status == "NORMAL"`
blocks further updates. -/
lemma worstScanGo_alert (l : List NearbyStation) :
    ∀ wst,
      (∀ s ∈ l, s.station.status ≠ "MAJOR_FLOOD" ∧ s.station.status ≠ "MINOR_FLOOD") →
      (∃ s ∈ l, s.station.status = "ALERT") →
      worstScanGo "NORMAL" wst l =
        ("ALERT", (l.filter (fun s => s.station.status = "ALERT")).head?) := by
  induction l with
  | nil => rintro wst _ ⟨s, hs, _⟩; exact absurd hs (List.not_mem_nil s)
  | cons s t ih =>
    rintro wst hno ⟨x, hx, hxa⟩
    obtain ⟨hsM, hsm⟩ := hno s (List.mem_cons_self s t)
    have e : worstScanGo "NORMAL" wst (s :: t) =
        (if s.station.status = "MAJOR_FLOOD" then ("MAJOR_FLOOD", some s)
         else if s.station.status = "MINOR_FLOOD" ∧ ("NORMAL":String) ≠ "MAJOR_FLOOD" then
           worstScanGo "MINOR_FLOOD" (some s) t
         else if s.station.status = "ALERT" ∧ ("NORMAL":String) = "NORMAL" then
           worstScanGo "ALERT" (some s) t
         else worstScanGo "NORMAL" wst t) := rfl
    by_cases hsa : s.station.status = "ALERT"
    · rw [e, if_neg hsM, if_neg (fun hc => hsm hc.1), if_pos ⟨hsa, rfl⟩,
        List.filter_cons_of_pos (by simpa using hsa)]
      rw [worstScanGo_inert t "ALERT" (some s) (by decide)
        (fun y hy => hno y (List.mem_cons_of_mem s hy))]
      rfl
    · have hx' : x ∈ t := by
        rcases List.mem_cons.mp hx with h | h
        · exact absurd (h ▸ hxa) hsa
        · exact h
      rw [e, if_neg hsM, if_neg (fun hc => hsm hc.1), if_neg (fun hc => hsa hc.1),
        List.filter_cons_of_neg (by simpa using hsa)]
      exact ih wst (fun y hy => hno y (List.mem_cons_of_mem s hy)) ⟨x, hx', hxa⟩

/-- C3 (amended): the representative station recorded by the worst-status
scan is: the FIRST (closest) MAJOR_FLOOD station when one is present; the
LAST (farthest) MINOR_FLOOD station when the worst status is MINOR_FLOOD —
so among several stations sharing the worst status MINOR_FLOOD the farthest
one, not the closest, is named —; and the first ALERT station when the
worst status is ALERT. -/
theorem worstScan_representative (l : List NearbyStation) :
    ((∃ s ∈ l, s.station.status = "MAJOR_FLOOD") →
      worstScan l = ("MAJOR_FLOOD",
        (l.filter (fun s => s.station.status = "MAJOR_FLOOD")).head?)) ∧
    ((∀ s ∈ l, s.station.status ≠ "MAJOR_FLOOD") →
      (∃ s ∈ l, s.station.status = "MINOR_FLOOD") →
      worstScan l = ("MINOR_FLOOD",
        (l.filter (fun s => s.station.status = "MINOR_FLOOD")).getLast?)) ∧
    ((∀ s ∈ l, s.station.status ≠ "MAJOR_FLOOD" ∧ s.station.status ≠ "MINOR_FLOOD") →
      (∃ s ∈ l, s.station.status = "ALERT") →
      worstScan l = ("ALERT",
        (l.filter (fun s => s.station.status = "ALERT")).head?)) :=
  ⟨fun h => worstScanGo_major l "NORMAL" Option.none h,
   fun hno h => worstScanGo_minor l "NORMAL" Option.none (by decide) hno h,
   fun hno h => worstScanGo_alert l Option.none hno h⟩

/-- Witness for C3: two MINOR_FLOOD entries at 1 km and 2 km — the scan
returns state MINOR_FLOOD with the last (2 km) entry as representative. -/
theorem worstScan_representative_witness :
    worstScan
        [⟨{ name := "A", basin := "", lat := some 1, lon := some 80,
            status := "MINOR_FLOOD", water_level := PyVal.none,
            thresholds := Option.none, updated := Option.none }, 1⟩,
         ⟨{ name := "B", basin := "", lat := some 2, lon := some 80,
            status := "MINOR_FLOOD", water_level := PyVal.none,
            thresholds := Option.none, updated := Option.none }, 2⟩] =
      ("MINOR_FLOOD",
        (([⟨{ name := "A", basin := "", lat := some 1, lon := some 80,
              status := "MINOR_FLOOD", water_level := PyVal.none,
              thresholds := Option.none, updated := Option.none }, 1⟩,
           ⟨{ name := "B", basin := "", lat := some 2, lon := some 80,
              status := "MINOR_FLOOD", water_level := PyVal.none,
              thresholds := Option.none, updated := Option.none }, 2⟩] :
            List NearbyStation).filter
          (fun s => s.station.status = "MINOR_FLOOD")).getLast?) :=
  (worstScan_representative _).2.1 (by with_unfolding_all decide)
    (by with_unfolding_all decide)

/-- C3 counterexample: two MINOR_FLOOD stations at 1 km ("A") and 2 km
("B") from the query point; the summary names B — the farther of the two
equally-worst stations — not the closest. -/
theorem representative_minor_counterexample :
    (check_risk (fun _ _ la _ => la) 0 0 15
        [{ station := some "A", basin := Option.none, x := some 80, y := some 1 },
         { station := some "B", basin := Option.none, x := some 80, y := some 2 }]
        [{ gauge := some "A", water_level := .num (.fin 10), alertpull := .num (.fin 7),
           minorpull := .num (.fin 9), majorpull := .num (.fin 20), CreationDate := some 1 },
         { gauge := some "B", water_level := .num (.fin 10), alertpull := .num (.fin 7),
           minorpull := .num (.fin 9), majorpull := .num (.fin 20), CreationDate := some 1 }]).summary =
      "MINOR_FLOOD at B (2.0 km away)" ∧
    (check_risk (fun _ _ la _ => la) 0 0 15
        [{ station := some "A", basin := Option.none, x := some 80, y := some 1 },
         { station := some "B", basin := Option.none, x := some 80, y := some 2 }]
        [{ gauge := some "A", water_level := .num (.fin 10), alertpull := .num (.fin 7),
           minorpull := .num (.fin 9), majorpull := .num (.fin 20), CreationDate := some 1 },
         { gauge := some "B", water_level := .num (.fin 10), alertpull := .num (.fin 7),
           minorpull := .num (.fin 9), majorpull := .num (.fin 20), CreationDate := some 1 }]).nearby.map
        (fun e => (e.station.name, e.station.status, e.distance_km)) =
      [("A", "MINOR_FLOOD", 1), ("B", "MINOR_FLOOD", 2)] :=
  ⟨by with_unfolding_all decide, by with_unfolding_all decide⟩

/-- C8 (amended): the retained within-radius list — and hence the displayed
`nearby` — is sorted ascending by `distance_km`, the ROUNDED `round(dist,1)`
value used as the Python sort key; true unrounded distances can be out of
order inside a 0.1 km rounding bucket. -/
theorem retained_sorted_by_rounded (hav : ℚ → ℚ → ℚ → ℚ → ℚ)
    (lat lon radius_km : ℚ) (ss : List StationFeature) (rs : List Reading) :
    List.Sorted distLe (retainedSorted hav lat lon radius_km (get_all_stations ss rs)) ∧
    List.Pairwise distLe (check_risk hav lat lon radius_km ss rs).nearby := by
  have h := List.sorted_insertionSort distLe
    (retained hav lat lon radius_km (get_all_stations ss rs))
  refine ⟨h, ?_⟩
  rw [check_risk_nearby_eq]
  exact List.Pairwise.sublist (List.take_sublist 5 _) h

/-- C8 counterexample: two stations whose true distances are 5.24 km ("A",
listed first) and 5.16 km ("B") both display as 5.2 km; the stable sort on
the rounded key keeps [A, B], so A precedes B although its true distance is
strictly larger. -/
theorem sorted_by_rounded_counterexample :
    ((check_risk (fun _ _ la _ => if la = 1 then (131/25 : ℚ) else 129/25) 0 0 15
        [{ station := some "A", basin := Option.none, x := some 80, y := some 1 },
         { station := some "B", basin := Option.none, x := some 80, y := some 2 }]
        []).nearby.map (fun e => (e.station.name, e.station.lat, e.distance_km))) =
      [("A", some 1, 26/5), ("B", some 2, 26/5)] ∧
    (fun _ _ la _ => if la = 1 then (131/25 : ℚ) else 129/25) 0 0 (2:ℚ) (80:ℚ) <
      (fun _ _ la _ => if la = 1 then (131/25 : ℚ) else 129/25) 0 0 (1:ℚ) (80:ℚ) :=
  ⟨by with_unfolding_all decide, by with_unfolding_all decide⟩
